import Mathlib

/-!
Verification of the `RotN` synapse component (`src/RotN.py`) against its
natural-language specification.  The component turns a declarative description
(accesses `V`, `Vd`; parameter `weight`; update `I`) into a compiled CUDA
kernel and, per simulation step, retrieves input buffers and dispatches the
kernel asynchronously.  The development below is a shallow embedding of that
code: device values are idealized as rationals, device arrays as functions
`ℕ → ℚ` together with a length, and the stateful construction / per-step
protocol as explicit state passing that also records a trace of issued
operations (allocations, compilations, retrievals, kernel launches).
-/

namespace RotN

/-- Numeric values carried by device arrays (idealized as rationals). -/
abbrev Val := ℚ

/-- Numpy dtype descriptors that can reach `dtype_to_ctype`.  The
`unsupported` constructor stands for any dtype with no known canonical
C type (e.g. a structured dtype). -/
inductive NpDType where
  | float32
  | float64
  | int32
  | int64
  | unsupported
deriving DecidableEq, Repr

/-- Model of `pycuda.tools.dtype_to_ctype`: canonical C type name for a numpy dtype;
raises (here: `none`) for a dtype that maps to no known canonical type. -/
def dtype_to_ctype : NpDType → Option String
  | .float32 => some "float"
  | .float64 => some "double"
  | .int32 => some "int"
  | .int64 => some "long long"
  | .unsupported => none

/-- The component's declared input accesses, `RotN.accesses = ['V','Vd']`. -/
def accesses : List String := ["V", "Vd"]

/-- The component's declared updates, `RotN.updates = ['I']`. -/
def updates : List String := ["I"]

/-- The component's declared parameters, `RotN.params = ['weight']`. -/
def comp_params : List String := ["weight"]

/-! The `update` kernel of `get_update_template`:

```
__global__ void update(int num_comps, %(dt)s dt, int steps,
                       %(V)s* g_V, %(Vd)s* g_Vd,
                       %(weight)s* g_weight, %(I)s* g_I)
{
    int tid = threadIdx.x + blockIdx.x * blockDim.x;
    int total_threads = gridDim.x * blockDim.x;
    ...
    for(int i = tid; i < num_comps; i += total_threads)
    {
        V = g_V[i]; Vd = g_Vd[i]; weight = g_weight[i];
        g_I[i] = V*Vd*weight;
    }
}
```
-/

/-- Index sequence visited by one thread's grid-stride loop
`for (int i = tid; i < num_comps; i += total_threads)`: starting at `i`,
stepping by `stride`, while `i < numComps`.  (The `0 < stride` guard only
makes the recursion well-founded; every real launch has `stride ≥ 256`.) -/
def strideIndices (numComps stride i : ℕ) : List ℕ :=
  if h : i < numComps ∧ 0 < stride then
    i :: strideIndices numComps stride (i + stride)
  else []
termination_by numComps - i
decreasing_by omega

/-- One thread of the `update` kernel: at each index of its grid-stride loop
it reads `g_V[i]`, `g_Vd[i]`, `g_weight[i]` and stores `V*Vd*weight` to
`g_I[i]`.  The `dt` and `steps` arguments are received (they are in the
kernel signature) but never read by the kernel body. -/
def kernelThread (numComps : ℕ) (dt : Val) (steps : ℤ)
    (gV gVd gWeight : ℕ → Val) (stride tid : ℕ) (gI : ℕ → Val) : ℕ → Val :=
  (strideIndices numComps stride tid).foldl
    (fun out i => Function.update out i (gV i * gVd i * gWeight i)) gI

/-- A whole launch of the `update` kernel: every thread
`tid < gridDim.x * blockDim.x` runs `kernelThread` with stride
`gridDim.x * blockDim.x`.  Threads write disjoint cells, so folding them in
`tid` order is a faithful model of the parallel execution. -/
def runKernel (grid block numComps : ℕ) (dt : Val) (steps : ℤ)
    (gV gVd gWeight gI : ℕ → Val) : ℕ → Val :=
  (List.range (grid * block)).foldl
    (fun out tid =>
      kernelThread numComps dt steps gV gVd gWeight (grid * block) tid out) gI

/-- The multiset (as a list) of output indices written during one launch:
each thread contributes the indices of its grid-stride loop. -/
def kernelWrites (grid block numComps : ℕ) : List ℕ :=
  (List.range (grid * block)).flatMap
    (fun tid => strideIndices numComps (grid * block) tid)

/-! Device arrays, construction and the per-step protocol. -/

/-- A device-resident dense array (`pycuda.gpuarray`): a length, a numpy
dtype, and its contents. -/
structure GArray where
  size : ℕ
  dtype : NpDType
  data : ℕ → Val

/-- Arguments of `RotN.__init__(params_dict, access_buffers, dt, LPU_id,
debug, cuda_verbose)`: the single parameter array `params_dict['weight']`,
the upstream access buffers for `V` and `Vd`, the step duration `dt`, the
flags, and the device's `MULTIPROCESSOR_COUNT` (read inside
`get_update_func`). -/
structure InitArgs where
  weight : GArray
  bufV : GArray
  bufVd : GArray
  dt : Val
  debug : Bool
  cuda_verbose : Bool
  mp_count : ℕ

/-- The `dtypes` dictionary assembled in `__init__` (keys in insertion
order `dt, V, Vd, weight, I`): `dt`, `weight` and `I` use the first
parameter's dtype; each access uses its upstream buffer's dtype. -/
structure DTypes where
  dt : NpDType
  V : NpDType
  Vd : NpDType
  weight : NpDType
  I : NpDType
deriving DecidableEq, Repr

def init_dtypes (a : InitArgs) : DTypes :=
  { dt := a.weight.dtype, V := a.bufV.dtype, Vd := a.bufVd.dtype,
    weight := a.weight.dtype, I := a.weight.dtype }

/-- The `type_dict` built by `get_update_func`: the canonical C type of every
quantity plus the derived `fletter` precision-suffix flag. -/
structure TypeDict where
  dt : String
  V : String
  Vd : String
  weight : String
  I : String
  fletter : String
deriving DecidableEq, Repr

/-- The `type_dict` dict comprehension of `get_update_func`, mapping every
key of `dtypes` through `dtype_to_ctype`, followed by
`type_dict.update({'fletter': 'f' if type_dict[self.params[0]] == 'float'
else ''})`; the comprehension raises (here: `none`) at the first dtype with
no canonical C type, in key order `dt, V, Vd, weight, I`. -/
def resolve_type_dict (d : DTypes) : Option TypeDict := do
  let cdt ← dtype_to_ctype d.dt
  let cV ← dtype_to_ctype d.V
  let cVd ← dtype_to_ctype d.Vd
  let cw ← dtype_to_ctype d.weight
  let cI ← dtype_to_ctype d.I
  some ⟨cdt, cV, cVd, cw, cI, if cw = "float" then "f" else ""⟩

/-- The grid size set by `get_update_func`:
`min(6 * MULTIPROCESSOR_COUNT, (num_comps - 1) // 256 + 1)`, with Python's
floor division (`Int.fdiv`). -/
def gridSizeCode (numComps mp : ℕ) : ℤ :=
  min (6 * (mp : ℤ)) (Int.fdiv ((numComps : ℤ) - 1) 256 + 1)

/-- The prepared kernel handle returned by `get_update_func`: the resolved
`type_dict`, `func.block = (256, 1, 1)` and
`func.grid = (min(6 * MP, (num_comps - 1) // 256 + 1), 1)`. -/
structure UpdateFunc where
  typeDict : TypeDict
  block : ℕ × ℕ × ℕ
  grid : ℤ × ℕ
deriving DecidableEq, Repr

/-- Model of `RotN.get_update_func`: resolve the type dict (raising on an unsupported
dtype), compile the expanded template, and fix the launch geometry. -/
def get_update_func (numComps mp : ℕ) (d : DTypes) : Option UpdateFunc :=
  (resolve_type_dict d).map
    (fun td => ⟨td, (256, 1, 1), (gridSizeCode numComps mp, 1)⟩)

/-- Operations issued on the device during construction and stepping. -/
inductive Event where
  | allocInput (name : String)
  | getRetrieveFunc (name : String)
  | compileKernel
  | retrieve (name : String)
  | launch (grid : ℤ × ℕ) (block : ℕ × ℕ × ℕ) (numComps : ℕ)
      (dtArg : Val) (stepsArg : ℤ)
deriving DecidableEq, Repr

def isCompileEvent : Event → Bool
  | .compileKernel => true
  | _ => false

def isRetrieveEvent : Event → Bool
  | .retrieve _ => true
  | _ => false

def isLaunchEvent : Event → Bool
  | .launch _ _ _ _ _ => true
  | _ => false

def isAllocEvent : Event → Bool
  | .allocInput _ => true
  | _ => false

inductive Err where
  | unsupportedType
  | bufferLengthMismatch (name : String)
deriving DecidableEq, Repr

/-- The component's state after `__init__`. -/
structure CompState where
  debug : Bool
  dt : Val
  num_comps : ℕ
  dtype : NpDType
  nsteps : ℤ
  ddt : Val
  bufV : GArray
  bufVd : GArray
  weight : GArray
  inputV : ℕ → Val
  inputVd : ℕ → Val
  update_func : UpdateFunc

/-- Model of `RotN.__init__`: stores `dt`, derives `num_comps` and `dtype` from the
first parameter array, fixes `nsteps = 1` and `ddt = dt / nsteps`, allocates
one empty device input array per access (`garray.empty`, contents
unspecified, modelled as zeros — they are overwritten by retrieval before
any read), builds the per-access retrieval functions, assembles `dtypes`,
and finally calls `get_update_func`, which raises on an unsupported dtype
after those allocations.  Returns the trace of issued device operations
together with the constructed state (or the construction error). -/
def rotn_init (a : InitArgs) : List Event × Except Err CompState :=
  let pre : List Event := [.allocInput "V", .allocInput "Vd",
                           .getRetrieveFunc "V", .getRetrieveFunc "Vd"]
  match get_update_func a.weight.size a.mp_count (init_dtypes a) with
  | none => (pre, .error .unsupportedType)
  | some uf =>
      (pre ++ [.compileKernel],
       .ok { debug := a.debug, dt := a.dt, num_comps := a.weight.size,
             dtype := a.weight.dtype, nsteps := 1,
             ddt := a.dt / ((1 : ℤ) : Val),
             bufV := a.bufV, bufVd := a.bufVd, weight := a.weight,
             inputV := fun _ => 0, inputVd := fun _ => 0,
             update_func := uf })

/-- Modelled from the spec: `retrieve_buffer` is inherited from neurokernel's
`BaseSynapseModel`, which is not part of this repository's source.  Per the
spec (§4.4, §7) it copies the upstream buffer's current per-instance values
into the component's dense input array for that access, and fails
deterministically when the upstream buffer reports a per-instance length
other than the constructed `N`, rather than truncating, padding, or reading
out of bounds. -/
def retrieve_buffer (num_comps : ℕ) (name : String) (buf : GArray) :
    Except Err (ℕ → Val) :=
  if buf.size = num_comps then .ok buf.data
  else .error (.bufferLengthMismatch name)

/-- Model of `RotN.run_step(update_pointers, st)`: retrieve every access buffer into
its dense input array (in `accesses` order), then issue
`update_func.prepared_async_call(grid, block, st, num_comps, ddt*1000,
nsteps, inputs..., params..., update_pointers...)` on the same stream.
Returns the trace of operations issued on the stream, and (on success) the
post-step component state together with the contents written through
`update_pointers['I']`. -/
def run_step (s : CompState) (destI : ℕ → Val) :
    List Event × Except Err (CompState × (ℕ → Val)) :=
  match retrieve_buffer s.num_comps "V" s.bufV with
  | .error e => ([.retrieve "V"], .error e)
  | .ok dV =>
    match retrieve_buffer s.num_comps "Vd" s.bufVd with
    | .error e => ([.retrieve "V", .retrieve "Vd"], .error e)
    | .ok dVd =>
      let out := runKernel s.update_func.grid.1.toNat s.update_func.block.1
                   s.num_comps (s.ddt * 1000) s.nsteps dV dVd
                   s.weight.data destI
      ([.retrieve "V", .retrieve "Vd",
        .launch s.update_func.grid s.update_func.block s.num_comps
          (s.ddt * 1000) s.nsteps],
       .ok ({ s with inputV := dV, inputVd := dVd }, out))

/-- The component state after one `run_step` (unchanged if the step failed). -/
def nextState (s : CompState) (destI : ℕ → Val) : CompState :=
  match (run_step s destI).2 with
  | .ok (s', _) => s'
  | .error _ => s

/-- The contents of the step's update destination after one `run_step`
(unchanged if the step failed before the launch). -/
def stepOutput (s : CompState) (destI : ℕ → Val) : ℕ → Val :=
  match (run_step s destI).2 with
  | .ok (_, out) => out
  | .error _ => destI

/-- Modelled from the spec (§4.3, §9): the signature-keyed compiled-kernel
cache.  In the source, caching of compiled kernels lives in pycuda's
compiler layer, outside this repository; the spec prescribes an explicit
mapping from resolved type signatures to compiled kernels, populated on
miss.  `getKernel` returns the updated cache and the number of compilations
triggered (1 on a miss, 0 on a hit). -/
structure KernelCache where
  sigs : List TypeDict
deriving DecidableEq, Repr

/-- Modelled from the spec: cache lookup; compile exactly on a miss. -/
def getKernel (c : KernelCache) (sig : TypeDict) : KernelCache × ℕ :=
  if sig ∈ c.sigs then (c, 0) else (⟨sig :: c.sigs⟩, 1)

/-! Concrete example values, matching the spec's concrete scenario
`N = 3`, `input1 = [1,2,3]`, `input2 = [4,5,6]`, `weight = [1,1,1]`. -/

def exWeight : GArray := ⟨3, .float64, fun _ => 1⟩

def exBufV : GArray := ⟨3, .float64, fun i => ([1, 2, 3] : List Val).getD i 0⟩

def exBufVd : GArray := ⟨3, .float64, fun i => ([4, 5, 6] : List Val).getD i 0⟩

/-- A well-typed construction input: `N = 3`, double-precision arrays,
`dt = 1/10`, a device with 30 multiprocessors. -/
def exInit : InitArgs := ⟨exWeight, exBufV, exBufVd, 1/10, false, false, 30⟩

/-- A construction input whose parameter array has a dtype with no canonical
C type. -/
def exInitBad : InitArgs :=
  ⟨⟨3, .unsupported, fun _ => 1⟩, exBufV, exBufVd, 1/10, false, false, 30⟩

/-- The component state constructed by `rotn_init exInit` (the fallback of
`getD` is never used: that construction succeeds). -/
def exState0 : CompState :=
  ((rotn_init exInit).2.toOption).getD
    ⟨false, 0, 0, .float64, 1, 0, exWeight, exWeight, exWeight,
     fun _ => 0, fun _ => 0,
     ⟨⟨"double", "double", "double", "double", "double", ""⟩, (256, 1, 1), (0, 1)⟩⟩

/-- `exState0` with an upstream `V` buffer reporting length 2 instead of 3. -/
def exStateBad : CompState :=
  { exState0 with bufV := ⟨2, .float64, fun _ => 0⟩ }

def exSigA : TypeDict := ⟨"double", "double", "double", "double", "double", ""⟩

def exSigB : TypeDict := ⟨"float", "float", "float", "float", "float", "f"⟩

def exDTypes : DTypes := ⟨.float32, .float32, .float32, .float32, .float32⟩

/-- The resolved type dict of `exDTypes` (the fallback is never used). -/
def exTypeDict : TypeDict := (resolve_type_dict exDTypes).getD exSigA

/-! Characterization of the grid-stride loop and of `runKernel`. -/

lemma strideIndices_eq (numComps stride i : ℕ) :
    strideIndices numComps stride i =
      if i < numComps ∧ 0 < stride then
        i :: strideIndices numComps stride (i + stride)
      else [] := by
  rw [strideIndices]
  split <;> simp_all

lemma count_strideIndices (numComps stride : ℕ) (hs : 0 < stride) (j : ℕ) :
    ∀ fuel start, numComps - start ≤ fuel →
      (strideIndices numComps stride start).count j =
        if start ≤ j ∧ j < numComps ∧ (j - start) % stride = 0 then 1 else 0 := by
  intro fuel
  induction fuel with
  | zero =>
    intro start hf
    have hns : ¬ start < numComps := by omega
    rw [strideIndices_eq]
    simp only [hns, false_and, if_false, List.count_nil]
    have : ¬ (start ≤ j ∧ j < numComps ∧ (j - start) % stride = 0) := by
      rintro ⟨h1, h2, _⟩; omega
    simp [this]
  | succ fuel ih =>
    intro start hf
    rw [strideIndices_eq]
    by_cases hlt : start < numComps
    · rw [if_pos ⟨hlt, hs⟩]
      have hrec := ih (start + stride) (by omega)
      rw [List.count_cons, hrec]
      by_cases hj : j = start
      · subst hj
        have h1 : ¬ (j + stride ≤ j ∧ j < numComps ∧ (j - (j + stride)) % stride = 0) := by
          rintro ⟨h, _, _⟩; omega
        have h2 : j ≤ j ∧ j < numComps ∧ (j - j) % stride = 0 :=
          ⟨le_refl j, hlt, by simp⟩
        rw [if_neg h1, if_pos h2]
        simp
      · have hsj : ¬ start = j := fun h => hj h.symm
        by_cases hc : start + stride ≤ j ∧ j < numComps ∧ (j - (start + stride)) % stride = 0
        · obtain ⟨hc1, hc2, hc3⟩ := hc
          have hfull : start ≤ j ∧ j < numComps ∧ (j - start) % stride = 0 := by
            refine ⟨by omega, hc2, ?_⟩
            have heq : j - start = (j - (start + stride)) + stride := by omega
            rw [heq, Nat.add_mod, hc3, Nat.mod_self]
            simp
          rw [if_pos ⟨hc1, hc2, hc3⟩, if_pos hfull]
          simp [hsj]
        · have hnfull : ¬ (start ≤ j ∧ j < numComps ∧ (j - start) % stride = 0) := by
            rintro ⟨h1, h2, h3⟩
            apply hc
            have hge : start + stride ≤ j := by
              rcases Nat.lt_or_ge j (start + stride) with hlt2 | hge
              · exfalso
                have hsub : j - start < stride := by omega
                have := Nat.mod_eq_of_lt hsub
                omega
              · exact hge
            refine ⟨hge, h2, ?_⟩
            have heq : j - start = (j - (start + stride)) + stride := by omega
            rw [heq, Nat.add_mod, Nat.mod_self] at h3
            simpa using h3
          rw [if_neg hc, if_neg hnfull]
          simp [hsj]
    · have h1 : ¬ (start < numComps ∧ 0 < stride) := by tauto
      have h2 : ¬ (start ≤ j ∧ j < numComps ∧ (j - start) % stride = 0) := by
        rintro ⟨ha, hb, _⟩; omega
      rw [if_neg h1, if_neg h2, List.count_nil]

lemma foldl_update_apply (f : ℕ → Val) :
    ∀ (l : List ℕ) (g0 : ℕ → Val) (j : ℕ),
      (l.foldl (fun out i => Function.update out i (f i)) g0) j
        = if j ∈ l then f j else g0 j := by
  intro l
  induction l with
  | nil => intro g0 j; simp
  | cons a l ih =>
    intro g0 j
    rw [List.foldl_cons, ih]
    by_cases hl : j ∈ l
    · simp [hl]
    · by_cases ha : j = a
      · subst ha; simp [hl, Function.update_apply]
      · simp [hl, ha, Function.update_apply]

lemma foldl_flatMap (f : ℕ → List ℕ) (g : (ℕ → Val) → ℕ → (ℕ → Val)) :
    ∀ (l : List ℕ) (init : ℕ → Val),
      (l.flatMap f).foldl g init = l.foldl (fun acc a => (f a).foldl g acc) init := by
  intro l
  induction l with
  | nil => intro init; rfl
  | cons a l ih =>
    intro init
    rw [List.flatMap_cons, List.foldl_append, List.foldl_cons, ih]

lemma count_flatMap (f : ℕ → List ℕ) (j : ℕ) :
    ∀ l : List ℕ,
      ((l.flatMap f).count j) = (l.map (fun a => (f a).count j)).sum := by
  intro l
  induction l with
  | nil => rfl
  | cons a l ih => rw [List.flatMap_cons, List.count_append, ih]; simp

lemma sum_indicator_range (n t : ℕ) :
    ((List.range n).map (fun x => if x = t then (1 : ℕ) else 0)).sum
      = if t < n then 1 else 0 := by
  induction n with
  | zero => simp
  | succ n ih =>
    rw [List.range_succ, List.map_append, List.sum_append, ih]
    simp only [List.map_cons, List.map_nil, List.sum_cons, List.sum_nil]
    split_ifs <;> omega

/-- A launch with at least one thread writes every cell `j < numComps`
exactly once and never touches a cell `j ≥ numComps`. -/
lemma count_kernelWrites (grid block numComps : ℕ) (hT : 0 < grid * block) (j : ℕ) :
    (kernelWrites grid block numComps).count j = if j < numComps then 1 else 0 := by
  rw [kernelWrites, count_flatMap]
  have hmap : (List.range (grid * block)).map
        (fun tid => (strideIndices numComps (grid * block) tid).count j)
      = (List.range (grid * block)).map
        (fun tid => if tid ≤ j ∧ j < numComps ∧ (j - tid) % (grid * block) = 0
          then 1 else 0) := by
    apply List.map_congr_left
    intro tid _
    exact count_strideIndices numComps (grid * block) hT j (numComps - tid) tid (le_refl _)
  rw [hmap]
  by_cases hj : j < numComps
  · have hmap2 : (List.range (grid * block)).map
          (fun tid => if tid ≤ j ∧ j < numComps ∧ (j - tid) % (grid * block) = 0
            then (1 : ℕ) else 0)
        = (List.range (grid * block)).map
          (fun tid => if tid = j % (grid * block) then 1 else 0) := by
      apply List.map_congr_left
      intro tid htid
      have htid' : tid < grid * block := List.mem_range.mp htid
      refine if_congr ⟨?_, ?_⟩ rfl rfl
      · rintro ⟨h1, _, h3⟩
        obtain ⟨k, hk⟩ := Nat.dvd_of_mod_eq_zero h3
        have hjk : j = tid + (grid * block) * k := by omega
        rw [hjk, Nat.add_mul_mod_self_left, Nat.mod_eq_of_lt htid']
      · intro h
        subst h
        refine ⟨Nat.mod_le _ _, hj, ?_⟩
        have hd := Nat.div_add_mod j (grid * block)
        have hsub : j - j % (grid * block) = (grid * block) * (j / (grid * block)) := by
          omega
        rw [hsub, Nat.mul_mod_right]
    rw [hmap2, sum_indicator_range, if_pos (Nat.mod_lt j hT), if_pos hj]
  · have hmap2 : (List.range (grid * block)).map
          (fun tid => if tid ≤ j ∧ j < numComps ∧ (j - tid) % (grid * block) = 0
            then (1 : ℕ) else 0)
        = (List.range (grid * block)).map (fun _ => 0) := by
      apply List.map_congr_left
      intro tid _
      have : ¬ (tid ≤ j ∧ j < numComps ∧ (j - tid) % (grid * block) = 0) := by
        rintro ⟨_, h2, _⟩; exact hj h2
      rw [if_neg this]
    rw [hmap2, if_neg hj]
    simp

/-- Unfolding lemma: `runKernel` is the fold of single-cell writes over
`kernelWrites`. -/
lemma runKernel_eq_foldl (grid block numComps : ℕ) (dt : Val) (steps : ℤ)
    (gV gVd gWeight gI : ℕ → Val) :
    runKernel grid block numComps dt steps gV gVd gWeight gI
      = (kernelWrites grid block numComps).foldl
          (fun out i => Function.update out i (gV i * gVd i * gWeight i)) gI := by
  rw [kernelWrites, foldl_flatMap]
  rfl

/-- Pointwise value of the kernel's output array. -/
lemma runKernel_apply (grid block numComps : ℕ) (dt : Val) (steps : ℤ)
    (gV gVd gWeight gI : ℕ → Val) (j : ℕ) :
    runKernel grid block numComps dt steps gV gVd gWeight gI j
      = if j ∈ kernelWrites grid block numComps
        then gV j * gVd j * gWeight j else gI j := by
  rw [runKernel_eq_foldl, foldl_update_apply]

/-- Cells below `numComps` are exactly the written cells (one-thread-plus launch). -/
lemma mem_kernelWrites (grid block numComps : ℕ) (hT : 0 < grid * block) (j : ℕ) :
    j ∈ kernelWrites grid block numComps ↔ j < numComps := by
  rw [← List.count_pos_iff, count_kernelWrites grid block numComps hT j]
  by_cases hj : j < numComps <;> simp [hj]

/-! Claim theorems. -/

/-- C1: for every instance count `N ≥ 1` and all per-instance input values,
one call to `run_step` writes output `I[i] = V[i] * Vd[i] * weight[i]` for
every `i < N`; each output cell is written exactly once per step regardless
of how `gridSize × blockSize` compares to `N` (the kernel body is a
grid-stride loop); and the result for instance `i` is independent of the
values at every other instance. -/
theorem claim1_elementwise_product (grid block N : ℕ)
    (hT : 0 < grid * block) (hN : 1 ≤ N)
    (dt : Val) (steps : ℤ) (V Vd W gI : ℕ → Val) :
    (∀ i, i < N → runKernel grid block N dt steps V Vd W gI i = V i * Vd i * W i)
    ∧ (∀ i, (kernelWrites grid block N).count i = if i < N then 1 else 0)
    ∧ (∀ (V' Vd' W' : ℕ → Val) (i : ℕ), i < N →
        V i = V' i → Vd i = Vd' i → W i = W' i →
        runKernel grid block N dt steps V Vd W gI i
          = runKernel grid block N dt steps V' Vd' W' gI i)
    ∧ (∀ (s : CompState) (destI : ℕ → Val),
        s.bufV.size = s.num_comps → s.bufVd.size = s.num_comps →
        0 < s.update_func.grid.1.toNat * s.update_func.block.1 →
        ∀ i, i < s.num_comps →
          stepOutput s destI i
            = s.bufV.data i * s.bufVd.data i * s.weight.data i) := by
  refine ⟨?_, ?_, ?_, ?_⟩
  · intro i hi
    rw [runKernel_apply, if_pos ((mem_kernelWrites grid block N hT i).mpr hi)]
  · intro i
    exact count_kernelWrites grid block N hT i
  · intro V' Vd' W' i hi h1 h2 h3
    rw [runKernel_apply, runKernel_apply,
      if_pos ((mem_kernelWrites grid block N hT i).mpr hi),
      if_pos ((mem_kernelWrites grid block N hT i).mpr hi), h1, h2, h3]
  · intro s destI hV hVd hT' i hi
    unfold stepOutput run_step retrieve_buffer
    rw [if_pos hV, if_pos hVd]
    simp only
    rw [runKernel_apply,
      if_pos ((mem_kernelWrites _ _ s.num_comps hT' i).mpr hi)]

/-- Witness for C1 at the spec's concrete scenario (`N = 3`,
`input1 = [1,2,3]`, `input2 = [4,5,6]`, `weight = [1,1,1]`, two threads):
instance 1 receives `2 * 5 * 1`. -/
theorem claim1_elementwise_product_witness :
    runKernel 1 2 3 (5 : Val) 7 exBufV.data exBufVd.data exWeight.data
        (fun _ => 0) 1
      = exBufV.data 1 * exBufVd.data 1 * exWeight.data 1 :=
  (claim1_elementwise_product 1 2 3 (by decide) (by decide) 5 7
    exBufV.data exBufVd.data exWeight.data (fun _ => 0)).1 1 (by decide)

/-- C9: the kernel's output is independent of the scalar time-step `dt` and
inner-iteration-count `steps` arguments it receives: for any two values of
these scalars and identical input, parameter and destination arrays, the
kernel writes identical outputs, because the generated kernel body never
reads `dt` or `steps`. -/
theorem claim9_dt_steps_never_read (grid block numComps : ℕ)
    (dt dt' : Val) (steps steps' : ℤ) (gV gVd gWeight gI : ℕ → Val) :
    runKernel grid block numComps dt steps gV gVd gWeight gI
      = runKernel grid block numComps dt' steps' gV gVd gWeight gI := by
  funext j
  rw [runKernel_apply, runKernel_apply]

/-- C2: kernel compilation happens at most once per component lifetime and
never on the per-step path (`run_step` issues no compilation); with a shared
signature-keyed cache (modelled from the spec), two components with the same
resolved type signature trigger at most one compilation, and distinct
signatures each trigger their own. -/
theorem claim2_compile_at_most_once :
    (∀ a : InitArgs,
      ((rotn_init a).1.countP (fun e => isCompileEvent e)) ≤ 1)
    ∧ (∀ (s : CompState) (destI : ℕ → Val),
      ((run_step s destI).1.countP (fun e => isCompileEvent e)) = 0)
    ∧ (∀ (c : KernelCache) (sig1 sig2 : TypeDict),
      (sig1 = sig2 →
        (getKernel c sig1).2 + (getKernel (getKernel c sig1).1 sig2).2 ≤ 1)
      ∧ (sig1 ≠ sig2 → sig1 ∉ c.sigs → sig2 ∉ c.sigs →
        (getKernel c sig1).2 = 1
        ∧ (getKernel (getKernel c sig1).1 sig2).2 = 1)) := by
  refine ⟨?_, ?_, ?_⟩
  · intro a
    cases h : get_update_func a.weight.size a.mp_count (init_dtypes a) with
    | none => simp [rotn_init, h]; decide
    | some uf => simp [rotn_init, h]; decide
  · intro s destI
    cases h1 : retrieve_buffer s.num_comps "V" s.bufV with
    | error e => simp [run_step, h1, isCompileEvent]
    | ok dV =>
      cases h2 : retrieve_buffer s.num_comps "Vd" s.bufVd with
      | error e => simp [run_step, h1, h2, isCompileEvent]
      | ok dVd => simp [run_step, h1, h2, isCompileEvent]
  · intro c sig1 sig2
    constructor
    · intro h
      subst h
      by_cases hm : sig1 ∈ c.sigs
      · simp [getKernel, hm]
      · simp [getKernel, hm]
    · intro hne h1 h2
      have h2' : ¬ sig2 = sig1 := fun h => hne h.symm
      constructor
      · simp [getKernel, h1]
      · simp [getKernel, h1, h2, h2']

/-- Witness for C2: with the example construction input, the example state
and a previously empty cache, the compile counts are as claimed. -/
theorem claim2_compile_at_most_once_witness :
    ((rotn_init exInit).1.countP (fun e => isCompileEvent e)) ≤ 1
    ∧ ((run_step exState0 (fun _ => 0)).1.countP (fun e => isCompileEvent e)) = 0
    ∧ (getKernel ⟨[]⟩ exSigA).2 + (getKernel (getKernel ⟨[]⟩ exSigA).1 exSigA).2 ≤ 1
    ∧ (getKernel ⟨[]⟩ exSigA).2 = 1
    ∧ (getKernel (getKernel ⟨[]⟩ exSigA).1 exSigB).2 = 1 :=
  ⟨claim2_compile_at_most_once.1 exInit,
   claim2_compile_at_most_once.2.1 exState0 (fun _ => 0),
   (claim2_compile_at_most_once.2.2 ⟨[]⟩ exSigA exSigA).1 rfl,
   ((claim2_compile_at_most_once.2.2 ⟨[]⟩ exSigA exSigB).2
     (by decide) (by decide) (by decide)).1,
   ((claim2_compile_at_most_once.2.2 ⟨[]⟩ exSigA exSigB).2
     (by decide) (by decide) (by decide)).2⟩

lemma resolve_none_of_unsupported (a : InitArgs)
    (h : dtype_to_ctype a.weight.dtype = none
       ∨ dtype_to_ctype a.bufV.dtype = none
       ∨ dtype_to_ctype a.bufVd.dtype = none) :
    resolve_type_dict (init_dtypes a) = none := by
  unfold resolve_type_dict init_dtypes
  rcases h with h | h | h
  · simp [h]
  · cases hdt : dtype_to_ctype a.weight.dtype <;> simp [h, hdt]
  · cases hdt : dtype_to_ctype a.weight.dtype
      <;> cases hV : dtype_to_ctype a.bufV.dtype
      <;> simp [h, hdt, hV]

/-- C3 counterexample: with an unsupported parameter dtype, construction
does fail with the unsupported-type error, but only after both per-access
device input arrays were allocated by `garray.empty` — accelerator
resources are allocated before the failure, refuting the claim that the
failure happens before any accelerator resource is allocated. -/
theorem claim3_counterexample_alloc_before_error :
    (rotn_init exInitBad).2 = Except.error Err.unsupportedType
    ∧ Event.allocInput "V" ∈ (rotn_init exInitBad).1
    ∧ ((rotn_init exInitBad).1.countP (fun e => isAllocEvent e)) = 2 :=
  ⟨rfl, by decide, by decide⟩

/-- C3 (amended): if any input, parameter, or update quantity has a
numeric-type descriptor that maps to no known canonical type, construction
fails with the unsupported-type error before the update kernel is compiled,
but only after the two per-access device input arrays have been allocated;
the trace of device operations is exactly the two allocations followed by
the two retrieval-function constructions. -/
theorem claim3_amended_fail_after_alloc (a : InitArgs)
    (h : dtype_to_ctype a.weight.dtype = none
       ∨ dtype_to_ctype a.bufV.dtype = none
       ∨ dtype_to_ctype a.bufVd.dtype = none) :
    (rotn_init a).2 = Except.error Err.unsupportedType
    ∧ ((rotn_init a).1.countP (fun e => isCompileEvent e)) = 0
    ∧ (rotn_init a).1
        = [.allocInput "V", .allocInput "Vd",
           .getRetrieveFunc "V", .getRetrieveFunc "Vd"] := by
  have hres : resolve_type_dict (init_dtypes a) = none :=
    resolve_none_of_unsupported a h
  have hguf : get_update_func a.weight.size a.mp_count (init_dtypes a) = none := by
    unfold get_update_func
    rw [hres]
    rfl
  refine ⟨?_, ?_, ?_⟩ <;> simp [rotn_init, hguf] <;> decide

/-- Witness for C3's amended claim at the concrete bad input. -/
theorem claim3_amended_fail_after_alloc_witness :
    (rotn_init exInitBad).2 = Except.error Err.unsupportedType
    ∧ ((rotn_init exInitBad).1.countP (fun e => isCompileEvent e)) = 0
    ∧ (rotn_init exInitBad).1
        = [.allocInput "V", .allocInput "Vd",
           .getRetrieveFunc "V", .getRetrieveFunc "Vd"] :=
  claim3_amended_fail_after_alloc exInitBad (Or.inl rfl)

lemma pythonCeilDiv (N : ℕ) (hN : 1 ≤ N) :
    Int.fdiv ((N : ℤ) - 1) 256 + 1 = ⌈(N : ℚ) / 256⌉ := by
  rw [Int.fdiv_eq_ediv _ (by norm_num)]
  have hN' : (1 : ℤ) ≤ (N : ℤ) := by exact_mod_cast hN
  have h1 : (((N : ℤ) - 1) / 256) * 256 < (N : ℤ) := by omega
  have h2 : (N : ℤ) ≤ (((N : ℤ) - 1) / 256 + 1) * 256 := by omega
  symm
  rw [Int.ceil_eq_iff]
  constructor
  · have he : ((((N : ℤ) - 1) / 256 + 1 : ℤ) : ℚ) - 1
        = ((((N : ℤ) - 1) / 256 : ℤ) : ℚ) := by
      push_cast
      ring
    rw [he, lt_div_iff₀ (by norm_num : (0 : ℚ) < 256)]
    exact_mod_cast h1
  · rw [div_le_iff₀ (by norm_num : (0 : ℚ) < 256)]
    exact_mod_cast h2

/-- C4: the launch geometry computed at construction is a fixed thread-block
size of 256 lanes and a grid size equal to
`min(6 × deviceMultiprocessorCount, ceil(N / 256))`, `N` the instance
count. -/
theorem claim4_launch_geometry (a : InitArgs) (s : CompState)
    (hN : 1 ≤ a.weight.size)
    (h : (rotn_init a).2 = Except.ok s) :
    s.update_func.block = (256, 1, 1)
    ∧ s.update_func.grid.1
        = min (6 * (a.mp_count : ℤ)) ⌈(a.weight.size : ℚ) / 256⌉
    ∧ s.update_func.grid.2 = 1 := by
  cases hguf : get_update_func a.weight.size a.mp_count (init_dtypes a) with
  | none => simp [rotn_init, hguf] at h
  | some uf =>
    simp [rotn_init, hguf] at h
    cases hres : resolve_type_dict (init_dtypes a) with
    | none => rw [get_update_func, hres] at hguf; simp at hguf
    | some td =>
      rw [get_update_func, hres] at hguf
      simp at hguf
      subst hguf
      rw [← h]
      refine ⟨rfl, ?_, rfl⟩
      show gridSizeCode a.weight.size a.mp_count
        = min (6 * (a.mp_count : ℤ)) ⌈(a.weight.size : ℚ) / 256⌉
      rw [gridSizeCode, pythonCeilDiv a.weight.size hN]

/-- Witness for C4 at the example construction (`N = 3`, 30
multiprocessors): block 256 and grid `(min 180 ⌈3/256⌉, 1) = (1, 1)`. -/
theorem claim4_launch_geometry_witness :
    exState0.update_func.block = (256, 1, 1)
    ∧ exState0.update_func.grid.1
        = min (6 * ((30 : ℕ) : ℤ)) ⌈((3 : ℕ) : ℚ) / 256⌉
    ∧ exState0.update_func.grid.2 = 1 :=
  claim4_launch_geometry exInit exState0 (by decide) rfl

/-- C5: in every call to `run_step`, the retrieval operations for all
declared input accesses are issued (on the supplied ordering token) before
the kernel launch for that step is issued: every retrieval event in the
step's trace precedes every launch event. -/
theorem claim5_retrievals_before_launch (s : CompState) (destI : ℕ → Val)
    (i j : ℕ)
    (hi : isRetrieveEvent ((run_step s destI).1.getD i Event.compileKernel) = true)
    (hj : isLaunchEvent ((run_step s destI).1.getD j Event.compileKernel) = true) :
    i < j := by
  cases h1 : retrieve_buffer s.num_comps "V" s.bufV with
  | error e =>
    exfalso
    rcases j with _ | j <;>
      simp [run_step, h1, isLaunchEvent,
        List.getD_cons_zero, List.getD_cons_succ, List.getD_nil] at hj
  | ok dV =>
    cases h2 : retrieve_buffer s.num_comps "Vd" s.bufVd with
    | error e =>
      exfalso
      rcases j with _ | _ | j <;>
        simp [run_step, h1, h2, isLaunchEvent,
          List.getD_cons_zero, List.getD_cons_succ, List.getD_nil] at hj
    | ok dVd =>
      rcases j with _ | _ | _ | j <;>
        rcases i with _ | _ | _ | i <;>
        simp [run_step, h1, h2, isLaunchEvent, isRetrieveEvent,
          List.getD_cons_zero, List.getD_cons_succ, List.getD_nil] at hi hj <;>
        omega

/-- Witness for C5: in the example step's trace, the retrieval at position 0
precedes the launch at position 2. -/
theorem claim5_retrievals_before_launch_witness : (0 : ℕ) < 2 :=
  claim5_retrievals_before_launch exState0 (fun _ => 0) 0 2 (by decide) (by decide)

/-- C6: invoking `run_step` repeatedly with unchanged input buffers,
parameter arrays and destinations yields identical results on every
invocation: a second step from the post-step state reproduces the first
step's trace, output and state exactly (no hidden carried state). -/
theorem claim6_repeat_run_step_identical (s : CompState) (destI : ℕ → Val) :
    run_step (nextState s destI) destI = run_step s destI := by
  cases h1 : retrieve_buffer s.num_comps "V" s.bufV with
  | error e => simp [nextState, run_step, h1]
  | ok dV =>
    cases h2 : retrieve_buffer s.num_comps "Vd" s.bufVd with
    | error e => simp [nextState, run_step, h1, h2]
    | ok dVd => simp [nextState, run_step, h1, h2]

/-- C7: if during a step an upstream input buffer reports a per-instance
length other than the constructed `N`, the step fails deterministically at
the retrieval stage: a length-mismatch error is returned, no kernel launch
is issued, and the destination is not written. -/
theorem claim7_length_mismatch_fails (s : CompState) (destI : ℕ → Val)
    (h : s.bufV.size ≠ s.num_comps ∨ s.bufVd.size ≠ s.num_comps) :
    (∃ name, (run_step s destI).2 = Except.error (Err.bufferLengthMismatch name))
    ∧ (∀ e ∈ (run_step s destI).1, isLaunchEvent e = false)
    ∧ stepOutput s destI = destI := by
  rcases h with h | h
  · have h1 : retrieve_buffer s.num_comps "V" s.bufV
        = .error (.bufferLengthMismatch "V") := by
      unfold retrieve_buffer
      rw [if_neg h]
    refine ⟨⟨"V", ?_⟩, ?_, ?_⟩ <;>
      simp [run_step, stepOutput, h1, isLaunchEvent]
  · cases h1 : retrieve_buffer s.num_comps "V" s.bufV with
    | error e =>
      have he : e = .bufferLengthMismatch "V" := by
        unfold retrieve_buffer at h1
        split at h1 <;> simp_all
      subst he
      refine ⟨⟨"V", ?_⟩, ?_, ?_⟩ <;>
        simp [run_step, stepOutput, h1, isLaunchEvent]
    | ok dV =>
      have h2 : retrieve_buffer s.num_comps "Vd" s.bufVd
          = .error (.bufferLengthMismatch "Vd") := by
        unfold retrieve_buffer
        rw [if_neg h]
      refine ⟨⟨"Vd", ?_⟩, ?_, ?_⟩ <;>
        simp [run_step, stepOutput, h1, h2, isLaunchEvent]

/-- Witness for C7: a state whose upstream `V` buffer reports length 2
instead of 3 fails the step at retrieval, with no launch and an untouched
destination. -/
theorem claim7_length_mismatch_fails_witness :
    (∃ name, (run_step exStateBad (fun _ => 0)).2
        = Except.error (Err.bufferLengthMismatch name))
    ∧ (∀ e ∈ (run_step exStateBad (fun _ => 0)).1, isLaunchEvent e = false)
    ∧ stepOutput exStateBad (fun _ => 0) = (fun _ => 0) :=
  claim7_length_mismatch_fails exStateBad (fun _ => 0) (Or.inl (by decide))

/-- C8: type resolution derives, besides the canonical type identifiers, a
precision-suffix flag from the first parameter's resolved type: `fletter`
is `"f"` exactly when `weight` resolves to single-precision float, and the
empty string otherwise. -/
theorem claim8_fletter_from_weight (d : DTypes) (td : TypeDict)
    (h : resolve_type_dict d = some td) :
    (td.fletter = "f" ↔ d.weight = NpDType.float32)
    ∧ (td.fletter = "f" ∨ td.fletter = "") := by
  unfold resolve_type_dict at h
  cases h1 : dtype_to_ctype d.dt with
  | none => rw [h1] at h; simp at h
  | some cdt =>
  rw [h1] at h
  cases h2 : dtype_to_ctype d.V with
  | none => rw [h2] at h; simp at h
  | some cV =>
  rw [h2] at h
  cases h3 : dtype_to_ctype d.Vd with
  | none => rw [h3] at h; simp at h
  | some cVd =>
  rw [h3] at h
  cases h4 : dtype_to_ctype d.weight with
  | none => rw [h4] at h; simp at h
  | some cw =>
  rw [h4] at h
  cases h5 : dtype_to_ctype d.I with
  | none => rw [h5] at h; simp at h
  | some cI =>
  rw [h5] at h
  simp only [Option.bind_eq_bind, Option.some_bind, Option.some.injEq] at h
  subst h
  dsimp only
  constructor
  · constructor
    · intro hf
      have hcw : cw = "float" := by
        by_cases hc : cw = "float"
        · exact hc
        · rw [if_neg hc] at hf
          exact absurd hf (by decide)
      rw [hcw] at h4
      cases hw : d.weight
      case float32 => rfl
      case float64 => rw [hw] at h4; exact absurd h4 (by simp [dtype_to_ctype])
      case int32 => rw [hw] at h4; exact absurd h4 (by simp [dtype_to_ctype])
      case int64 => rw [hw] at h4; exact absurd h4 (by simp [dtype_to_ctype])
      case unsupported => rw [hw] at h4; exact absurd h4 (by simp [dtype_to_ctype])
    · intro hw
      rw [hw] at h4
      simp only [dtype_to_ctype, Option.some.injEq] at h4
      rw [← h4]
      simp
  · by_cases hcw : cw = "float" <;> simp [hcw]

/-- Witness for C8: resolving all-single-precision dtypes yields
`fletter = "f"` precisely because `weight` is single-precision. -/
theorem claim8_fletter_from_weight_witness :
    (exTypeDict.fletter = "f" ↔ exDTypes.weight = NpDType.float32)
    ∧ (exTypeDict.fletter = "f" ∨ exTypeDict.fletter = "") :=
  claim8_fletter_from_weight exDTypes exTypeDict rfl

/-- C10: on every call, `run_step` passes the inner-iteration count as
exactly 1 (`nsteps` is fixed to 1 at construction) and passes the scalar
time-step as `ddt * 1000 = (dt / nsteps) * 1000 = dt * 1000` — the
constructor's `dt` scaled by 1000, not `dt` itself. -/
theorem claim10_unit_nsteps_scaled_dt (a : InitArgs) (s : CompState)
    (destI : ℕ → Val)
    (h : (rotn_init a).2 = Except.ok s)
    (hV : s.bufV.size = s.num_comps) (hVd : s.bufVd.size = s.num_comps) :
    s.nsteps = 1
    ∧ s.ddt = a.dt / ((1 : ℤ) : Val)
    ∧ (run_step s destI).1.getD 2 Event.compileKernel
        = Event.launch s.update_func.grid s.update_func.block s.num_comps
            (a.dt * 1000) 1 := by
  cases hguf : get_update_func a.weight.size a.mp_count (init_dtypes a) with
  | none => simp [rotn_init, hguf] at h
  | some uf =>
    simp [rotn_init, hguf] at h
    have hn : s.nsteps = 1 := by rw [← h]
    have hd : s.ddt = a.dt / ((1 : ℤ) : Val) := by
      rw [← h]
      simp
    have h1 : retrieve_buffer s.num_comps "V" s.bufV = .ok s.bufV.data := by
      unfold retrieve_buffer
      rw [if_pos hV]
    have h2 : retrieve_buffer s.num_comps "Vd" s.bufVd = .ok s.bufVd.data := by
      unfold retrieve_buffer
      rw [if_pos hVd]
    refine ⟨hn, hd, ?_⟩
    simp only [run_step, h1, h2, List.getD_cons_succ, List.getD_cons_zero]
    rw [hd, hn]
    norm_num

/-- Witness for C10 at the example construction: the third issued operation
of the step is the launch with iteration count 1 and scalar
`dt * 1000 = 100`. -/
theorem claim10_unit_nsteps_scaled_dt_witness :
    exState0.nsteps = 1
    ∧ exState0.ddt = exInit.dt / ((1 : ℤ) : Val)
    ∧ (run_step exState0 (fun _ => 0)).1.getD 2 Event.compileKernel
        = Event.launch exState0.update_func.grid exState0.update_func.block
            exState0.num_comps (exInit.dt * 1000) 1 :=
  claim10_unit_nsteps_scaled_dt exInit exState0 (fun _ => 0) rfl
    (by decide) (by decide)

end RotN
